import Mathlib

/-!
Shallow embedding of the Payluk Escrow Inline Checkout SDK core
(`src/index.ts`): configuration store, session client, widget loader and
the `pay` orchestrator, with theorems checking the specification's claims.

Modelling conventions:
* JavaScript runtime effects (fetch, response-body reads, JSON.parse,
  script load events) are passed in explicitly as environment data.
* Machine state (the process-wide CONFIG, the window's loader cache and
  globals) is passed and returned explicitly.
* A thrown JavaScript value is either a wrapped `EscrowCheckoutError`
  (modelled by `EscrowError`) or a raw value (`JsValue`).
-/

namespace Payluk

/-- The seven-code error taxonomy (`EscrowCheckoutErrorCode`, index.ts 3-10). -/
inductive ErrorCode
  | NOT_INITIALIZED
  | BROWSER_ONLY
  | INVALID_INPUT
  | WIDGET_LOAD
  | NETWORK
  | SESSION_CREATE
  | SESSION_RESPONSE
deriving DecidableEq, Repr

/-- Structured (JSON-like) values, as produced by `JSON.parse` / `resp.json()`. -/
inductive Json
  | null
  | bool (b : Bool)
  | num (n : Int)
  | str (s : String)
  | arr (elems : List Json)
  | obj (fields : List (String × Json))

/-- The `details` payload attached to an `EscrowCheckoutError`: either a parsed
structured body or a raw string. -/
inductive Detail
  | json (j : Json)
  | str (s : String)

/-- `EscrowCheckoutError` (index.ts 12-24): message, taxonomy code, optional
HTTP status and optional details. -/
structure EscrowError where
  message : String
  code : ErrorCode
  status : Option Nat
  details : Option Detail

/-- A raw JavaScript value as it may be thrown by a primitive: an `Error`
with a message, a plain string, or anything else.  Mirrors the cases
`normalizeError` (index.ts 94-98) distinguishes. -/
inductive JsValue
  | error (message : String)
  | str (s : String)
  | other
deriving DecidableEq, Repr

/-- `normalizeError` (index.ts 94-98), reduced to the message of the
resulting `Error` (the only part the SDK uses). -/
def normalizeErrorMessage : JsValue → String
  | .error m => m
  | .str s => s
  | .other => "Unknown error"

/-- A value thrown across the SDK's public boundary: either a wrapped
`EscrowCheckoutError` or a raw JavaScript value that escaped unwrapped. -/
inductive Thrown
  | escrow (e : EscrowError)
  | js (v : JsValue)

/-- `ResolvedConfig` (index.ts 58-62).  `crossOrigin` is one of
`""`, `"anonymous"`, `"use-credentials"`; we carry it as a string. -/
structure ResolvedConfig where
  publicKey : String
  scriptUrl : String
  globalName : String
  crossOrigin : String
deriving DecidableEq, Repr

/-- Caller-supplied `InitConfig` (index.ts 26-34).  Every field is optional at
runtime (a JS caller may omit any of them), hence `Option`. -/
structure InitConfig where
  publicKey : Option String
  scriptUrlOverride : Option String
  globalName : Option String
  crossOrigin : Option String
deriving DecidableEq, Repr

/-- Values that can appear in the widget invocation options object: a
structured value, a string, `undefined`, or a function (identified by a
numeric id, since only function identity matters to the model). -/
inductive WVal
  | jval (j : Json)
  | str (s : String)
  | undefined
  | func (id : Nat)

/-- `PayInput` (index.ts 36-49).  Callbacks are modelled by their identity. -/
structure PayInput where
  paymentToken : String
  reference : String
  redirectUrl : String
  logoUrl : Option String
  brand : Option String
  customerId : Option String
  extra : Option (List (String × WVal))
  callback : Option Nat
  onClose : Option Nat

def DEFAULT_SCRIPT_URL : String := "https://checkout.payluk.ng/escrow-checkout.min.js"

def DEFAULT_GLOBAL_NAME : String := "EscrowCheckout"

/-- Whitespace as JavaScript `trim` sees it on the inputs this model
ranges over (space, tab, newline, carriage return). -/
def isWsChar (c : Char) : Bool :=
  c = ' ' || c = '\t' || c = '\n' || c = '\r'

/-- JavaScript `String.prototype.trim`, as a structurally recursive list
computation so that concrete instances evaluate. -/
def jsTrim (s : String) : String :=
  ⟨((s.toList.dropWhile isWsChar).reverse.dropWhile isWsChar).reverse⟩

/-- JavaScript `String.prototype.startsWith`, as a structurally recursive
list computation so that concrete instances evaluate. -/
def jsStartsWith (s p : String) : Bool :=
  p.toList.isPrefixOf s.toList

/-- `isNonEmptyString` (index.ts 100-102) on a definitely-string value. -/
def isNonEmptyStr (s : String) : Bool :=
  jsTrim s != ""

/-- `isNonEmptyString` (index.ts 100-102) on a possibly-missing value:
a missing value is not a string, hence not a non-empty string. -/
def isNonEmptyString : Option String → Bool
  | some s => isNonEmptyStr s
  | none => false

/-- JavaScript `x || d` for a possibly-missing string `x`: the default is
taken when `x` is missing or falsy (the empty string). -/
def orDefault (v : Option String) (d : String) : String :=
  match v with
  | some s => if s = "" then d else s
  | none => d

/-- Association lookup with JavaScript object semantics: the latest binding
of a key wins. -/
def assocGet {α : Type} (l : List (String × α)) (k : String) : Option α :=
  l.foldl (fun acc p => if p.1 = k then some p.2 else acc) none

/-- Property access `j[k]` on a structured value: defined only on objects
(the latest duplicate key wins, as in `JSON.parse`); on every other value a
named property reads as absent. -/
def Json.get (j : Json) (k : String) : Option Json :=
  match j with
  | .obj fields => assocGet fields k
  | _ => none

/-- JavaScript truthiness of a structured value (`!value` in
`isSessionResponse`, index.ts 105). -/
def Json.truthy : Json → Bool
  | .null => false
  | .bool b => b
  | .num n => n ≠ 0
  | .str s => s ≠ ""
  | .arr _ => true
  | .obj _ => true

/-- Whether `typeof value === 'object'` holds for a structured value
(`null`, arrays and objects). -/
def Json.typeofObject : Json → Bool
  | .null => true
  | .arr _ => true
  | .obj _ => true
  | _ => false

/-- `'session' in value`: key membership, meaningful on objects only
(an array has no `session` key). -/
def Json.hasKey (j : Json) (k : String) : Bool :=
  match j with
  | .obj fields => fields.any (fun p => p.1 = k)
  | _ => false

/-- `isSessionResponse` (index.ts 104-107): truthy, of object type, and
owning a `session` key. -/
def isSessionResponse (v : Json) : Bool :=
  v.truthy && v.typeofObject && v.hasKey "session"

/-! ### Configuration store -/

/-- The error thrown by `initEscrowCheckout` on a missing or blank key. -/
def initInvalidErr : EscrowError :=
  ⟨"initEscrowCheckout(...) requires \"publicKey\".", .INVALID_INPUT, none, none⟩

/-- The error thrown by `assertConfigured` (index.ts 85-92). -/
def notInitializedErr : EscrowError :=
  ⟨"Escrow checkout not initialized. Call initEscrowCheckout(\x7b publicKey \x7d) first.",
   .NOT_INITIALIZED, none, none⟩

/-- `initEscrowCheckout` (index.ts 70-80), in explicit state-passing form:
takes the current process-wide `CONFIG` and the caller's (possibly missing)
config object, returns the call's outcome together with the new `CONFIG`.
The guard is `!isNonEmptyString(config?.publicKey)`, here unfolded into the
three ways it can fail (missing config object, missing key, blank key);
on success the stored key is trimmed and `scriptUrl`/`globalName` take the
`||`-default while `crossOrigin` takes the `??`-default. -/
def initEscrowCheckout (prev : Option ResolvedConfig) (config : Option InitConfig) :
    Except EscrowError Unit × Option ResolvedConfig :=
  match config with
  | none => (.error initInvalidErr, prev)
  | some c =>
    match c.publicKey with
    | none => (.error initInvalidErr, prev)
    | some k =>
      if jsTrim k = "" then (.error initInvalidErr, prev)
      else
        (.ok (), some ⟨jsTrim k,
          orDefault c.scriptUrlOverride DEFAULT_SCRIPT_URL,
          orDefault c.globalName DEFAULT_GLOBAL_NAME,
          c.crossOrigin.getD "anonymous"⟩)

/-! ### Session client -/

/-- The outbound HTTP request `createSession` issues (index.ts 195-205):
its target URL, method, content type, and structured body fields. -/
structure FetchRequest where
  url : String
  method : String
  contentType : String
  paymentToken : String
  redirectUrl : String
  reference : String
  customerId : Option String
  publicKey : String
deriving DecidableEq, Repr

/-- Base-URL selection of `createSession` (index.ts 191). -/
def apiBaseUrlOf (publicKey : String) : String :=
  if jsStartsWith publicKey "pk_live_" then "https://live.payluk.ng"
  else "https://staging.live.payluk.ng"

/-- The request `createSession` passes to `fetch` (index.ts 195-205). -/
def sessionRequest (cfg : ResolvedConfig) (input : PayInput) : FetchRequest :=
  ⟨apiBaseUrlOf cfg.publicKey ++ "/v1/checkout/session", "POST", "application/json",
   input.paymentToken, input.redirectUrl, input.reference, input.customerId, cfg.publicKey⟩

/-- Observable behaviour of an HTTP `Response` for the reads the SDK
performs.  `textResult` is what `resp.text()` yields (it can reject with a
raw value); `textParse` is the result of `JSON.parse` applied to that text
(`none` when the text is not valid JSON); `jsonResult` is what
`resp.json()` yields.  The SDK reads each response body at most once, so
the three fields never interact for one response. -/
structure HttpResponse where
  ok : Bool
  status : Nat
  textResult : Except JsValue String
  textParse : Option Json
  jsonResult : Except JsValue Json

/-- The result of `parseErrorBody`: optional message and optional details. -/
structure ErrBody where
  message : Option String
  details : Option Detail

/-- `parseErrorBody` (index.ts 109-120).  The `await resp.text()` on its
first line is not guarded, so a rejecting body read propagates as a raw
error; an empty text yields neither message nor details; a parseable text
yields its `message` field (when that is a string) and the parsed value as
details; a non-parseable text is used as both message and details. -/
def parseErrorBody (textResult : Except JsValue String) (textParse : Option Json) :
    Except JsValue ErrBody :=
  match textResult with
  | .error e => .error e
  | .ok text =>
    if text = "" then .ok ⟨none, none⟩
    else
      match textParse with
      | some j =>
        let message := match j.get "message" with
          | some (.str s) => some s
          | _ => none
        .ok ⟨message, some (.json j)⟩
      | none => .ok ⟨some text, some (.str text)⟩

/-- `parseJsonResponse` (index.ts 122-130): any rejection of `resp.json()`
is wrapped into a `SESSION_RESPONSE` error carrying the status. -/
def parseJsonResponse (status : Nat) (jsonResult : Except JsValue Json) :
    Except EscrowError Json :=
  match jsonResult with
  | .ok j => .ok j
  | .error _ =>
    .error ⟨"Invalid JSON response from session endpoint.", .SESSION_RESPONSE,
      some status, none⟩

/-- The generic fallback message of the non-success branch (index.ts 215). -/
def genericCreateMsg (status : Nat) : String :=
  "Failed to create session (HTTP " ++ toString status ++ ")."

/-- `createSession` (index.ts 188-230), parameterised by the behaviour of
`fetch`.  `assertConfigured` is reflected by taking a `ResolvedConfig`;
`pay` performs the same check before calling it.  The JavaScript
`message || generic` makes an empty-string message fall back to the
generic one. -/
def createSession (cfg : ResolvedConfig) (input : PayInput)
    (fetchFn : FetchRequest → Except JsValue HttpResponse) : Except Thrown Json :=
  match fetchFn (sessionRequest cfg input) with
  | .error e =>
    .error (.escrow ⟨"Network error while creating checkout session.", .NETWORK, none,
      some (.str (normalizeErrorMessage e))⟩)
  | .ok resp =>
    if resp.ok = false then
      match parseErrorBody resp.textResult resp.textParse with
      | .error e => .error (.js e)
      | .ok body =>
        let msg := match body.message with
          | some m => if m = "" then genericCreateMsg resp.status else m
          | none => genericCreateMsg resp.status
        .error (.escrow ⟨msg, .SESSION_CREATE, some resp.status, body.details⟩)
    else
      match parseJsonResponse resp.status resp.jsonResult with
      | .error e => .error (.escrow e)
      | .ok data =>
        if isSessionResponse data = false then
          .error (.escrow ⟨"Session response missing \"session\".", .SESSION_RESPONSE,
            some resp.status, some (.json data)⟩)
        else .ok data

/-! ### Widget loader -/

/-- A value stored in the window's global namespace, as far as the loader
observes it: a function (identified numerically) or anything else. -/
inductive WinVal
  | func (id : Nat)
  | nonFunc
deriving DecidableEq, Repr

/-- The observable window state the loader touches: the process-wide
`__escrowCheckoutLoader` cache (keyed by script URL; each stored promise is
represented by its eventual outcome) and the global namespace. -/
structure WinState where
  loaderCache : List (String × Except EscrowError Nat)
  globals : List (String × WinVal)

/-- How an injected script settles: its `load` event fires (with whatever
the global entry-point name then resolves to) or its `error` event fires. -/
inductive ScriptLoadEvent
  | onload (globalVal : Option WinVal)
  | onerror
deriving DecidableEq, Repr

/-- Outcome of the promise created for an injected script
(index.ts 156-179): `onload` resolves with the global when it is a
function and otherwise rejects `WIDGET_LOAD`; `onerror` rejects
`WIDGET_LOAD`. -/
def resolveInjected (globalName scriptUrl : String) : ScriptLoadEvent → Except EscrowError Nat
  | .onload (some (.func f)) => .ok f
  | .onload _ =>
    .error ⟨"Escrow checkout script loaded, but window." ++ globalName ++
      " is not a function.", .WIDGET_LOAD, none, none⟩
  | .onerror =>
    .error ⟨"Failed to load escrow checkout script: " ++ scriptUrl, .WIDGET_LOAD,
      none, none⟩

/-- Which path a `loadWidget` call took through its synchronous prefix. -/
inductive LoadPath
  | cached
  | fromGlobal
  | injected
deriving DecidableEq, Repr

/-- The synchronous body of `loadWidget` (index.ts 143-181), after its
config and window guards: first the per-URL cache is consulted (a stored
promise object is always truthy); only on a cache miss is the global
entry-point name examined, and a callable found there is cached under the
script URL and returned with no injection; only otherwise is a script
injected, its promise cached before any asynchronous work.  Returns the
path taken, the (eventual) outcome returned to the caller, and the new
window state. -/
def loadWidgetStep (cfg : ResolvedConfig) (w : WinState) (ev : ScriptLoadEvent) :
    LoadPath × Except EscrowError Nat × WinState :=
  match assocGet w.loaderCache cfg.scriptUrl with
  | some entry => (.cached, entry, w)
  | none =>
    match assocGet w.globals cfg.globalName with
    | some (.func f) =>
      (.fromGlobal, .ok f, ⟨w.loaderCache ++ [(cfg.scriptUrl, .ok f)], w.globals⟩)
    | _ =>
      let entry := resolveInjected cfg.globalName cfg.scriptUrl ev
      (.injected, entry, ⟨w.loaderCache ++ [(cfg.scriptUrl, entry)], w.globals⟩)

/-- Modelled from the spec (claim wording, §4.2 steps 1-2): the SAME body
but with the global entry-point check performed FIRST, before the per-URL
cache is consulted.  This is the refinement candidate the specification
describes; it is compared against `loadWidgetStep`, which is the code. -/
def loadWidgetStepSpecOrder (cfg : ResolvedConfig) (w : WinState) (ev : ScriptLoadEvent) :
    LoadPath × Except EscrowError Nat × WinState :=
  match assocGet w.globals cfg.globalName with
  | some (.func f) =>
    (.fromGlobal, .ok f, ⟨w.loaderCache ++ [(cfg.scriptUrl, .ok f)], w.globals⟩)
  | _ =>
    match assocGet w.loaderCache cfg.scriptUrl with
    | some entry => (.cached, entry, w)
    | none =>
      let entry := resolveInjected cfg.globalName cfg.scriptUrl ev
      (.injected, entry, ⟨w.loaderCache ++ [(cfg.scriptUrl, entry)], w.globals⟩)

/-- `loadWidget` (index.ts 135-181) with its guards: `assertConfigured`
first, then the browser check. -/
def loadWidget (cfgOpt : Option ResolvedConfig) (windowDefined : Bool) (w : WinState)
    (ev : ScriptLoadEvent) :
    Except EscrowError (LoadPath × Except EscrowError Nat × WinState) :=
  match cfgOpt with
  | none => .error notInitializedErr
  | some cfg =>
    if windowDefined = false then
      .error ⟨"EscrowCheckout can only be loaded in the browser.", .BROWSER_ONLY, none, none⟩
    else .ok (loadWidgetStep cfg w ev)

/-- The outcome `loadWidget` ultimately delivers to `pay` once the promise
it returned settles. -/
def loadWidgetOutcome (cfg : ResolvedConfig) (w : WinState) (ev : ScriptLoadEvent) :
    Except EscrowError Nat :=
  (loadWidgetStep cfg w ev).2.1

/-! ### Orchestrator -/

/-- `undefined`-aware conversion of an optional string input field to the
value placed in the options object. -/
def optStrVal : Option String → WVal
  | some s => .str s
  | none => .undefined

/-- `undefined`-aware conversion of an optional callback to the value
placed in the options object. -/
def optFnVal : Option Nat → WVal
  | some f => .func f
  | none => .undefined

/-- `const \x7b session \x7d = data` (index.ts 252): property access, with a
missing property reading as `undefined`. -/
def sessionValOf (data : Json) : WVal :=
  match data.get "session" with
  | some v => .jval v
  | none => .undefined

/-- The options object literal passed to the widget (index.ts 254-263):
seven named fields followed by the spread of `extra ?? \x7b\x7d`.  The object is
represented as its list of property writes; `assocGet` (latest write wins)
gives JavaScript's resulting property values, so the spread overrides any
same-named earlier field. -/
def buildOptions (cfg : ResolvedConfig) (session : WVal) (input : PayInput) :
    List (String × WVal) :=
  [("session", session),
   ("logoUrl", optStrVal input.logoUrl),
   ("brand", optStrVal input.brand),
   ("callback", optFnVal input.callback),
   ("onClose", optFnVal input.onClose),
   ("customerId", optStrVal input.customerId),
   ("publicKey", .str cfg.publicKey)] ++ input.extra.getD []

/-- One invocation of the widget entry point: which callable was invoked
and with which options object. -/
structure WidgetCall where
  widget : Nat
  options : List (String × WVal)

/-- `pay` (index.ts 236-264): browser check, `assertConfigured`, the three
input checks in order, then `Promise.all([createSession, loadWidget])` and
a single widget invocation on joint success.  The success value lists the
widget invocations performed (exactly one on success).  `Promise.all`
surfaces whichever branch fails; the model deterministically surfaces the
session branch's failure when both fail (every widget-branch failure is a
`WIDGET_LOAD` `EscrowError` by construction, so the choice does not affect
which failures are possible).  Inside `pay`, `loadWidget`'s own guards
cannot fire: `pay` has already checked the same window and the same
`CONFIG`, so the widget branch is entered at `loadWidgetStep`. -/
def pay (cfgOpt : Option ResolvedConfig) (windowDefined : Bool) (w : WinState)
    (input : PayInput) (fetchFn : FetchRequest → Except JsValue HttpResponse)
    (ev : ScriptLoadEvent) : Except Thrown (List WidgetCall) :=
  if windowDefined = false then
    .error (.escrow ⟨"pay(...) can only run in the browser.", .BROWSER_ONLY, none, none⟩)
  else
    match cfgOpt with
    | none => .error (.escrow notInitializedErr)
    | some cfg =>
      if isNonEmptyStr input.paymentToken = false then
        .error (.escrow ⟨"pay(...) requires \"paymentToken\".", .INVALID_INPUT, none, none⟩)
      else if isNonEmptyStr input.reference = false then
        .error (.escrow ⟨"pay(...) requires \"reference\".", .INVALID_INPUT, none, none⟩)
      else if isNonEmptyStr input.redirectUrl = false then
        .error (.escrow ⟨"pay(...) requires \"redirectUrl\".", .INVALID_INPUT, none, none⟩)
      else
        match createSession cfg input fetchFn, loadWidgetOutcome cfg w ev with
        | .ok data, .ok f => .ok [⟨f, buildOptions cfg (sessionValOf data) input⟩]
        | .error e, _ => .error e
        | .ok _, .error e => .error (.escrow e)

/-! ### Concrete fixtures used by witnesses -/

/-- A staging-environment configuration as `initEscrowCheckout` would store it. -/
def cfgTest : ResolvedConfig :=
  ⟨"pk_test_1", DEFAULT_SCRIPT_URL, DEFAULT_GLOBAL_NAME, "anonymous"⟩

/-- A fully populated `PayInput` whose `extra` both adds a new field and
overrides the built-in `publicKey` field. -/
def inputC1 : PayInput :=
  ⟨"tok", "ref", "https://r", some "https://logo", some "MyBrand", some "cust_1",
   some [("theme", WVal.str "dark"), ("publicKey", WVal.str "pk_override")],
   some 11, some 12⟩

/-- A minimal valid `PayInput` with no optional fields. -/
def inputC10 : PayInput :=
  ⟨"tok", "ref", "https://r", none, none, none, none, none, none⟩

/-- A window whose page already embeds the widget script: the global entry
point resolves to a callable and the loader cache is empty. -/
def winC1 : WinState := ⟨[], [(DEFAULT_GLOBAL_NAME, .func 7)]⟩

/-- A success response whose body is an object with a string `session`. -/
def respC1 : HttpResponse :=
  ⟨true, 200, .ok "\x7b\"session\":\"sess_1\"\x7d",
   some (.obj [("session", .str "sess_1")]), .ok (.obj [("session", .str "sess_1")])⟩

/-- A success response whose body is an object whose `session` is null. -/
def respC10 : HttpResponse :=
  ⟨true, 200, .ok "\x7b\"session\":null\x7d",
   some (.obj [("session", Json.null)]), .ok (.obj [("session", Json.null)])⟩

/-! ### Helper lemmas -/

theorem assocGet_foldl {α : Type} (k : String) (l : List (String × α)) (acc : Option α) :
    l.foldl (fun a p => if p.1 = k then some p.2 else a) acc =
      (assocGet l k).elim acc some := by
  induction l generalizing acc with
  | nil => rfl
  | cons hd tl ih =>
    show List.foldl _ (if hd.1 = k then some hd.2 else acc) tl = _
    have hc : assocGet (hd :: tl) k =
        List.foldl (fun a p => if p.1 = k then some p.2 else a)
          (if hd.1 = k then some hd.2 else none) tl := rfl
    rw [hc, ih, ih]
    rcases hA : assocGet tl k with _ | v
    · by_cases h : hd.1 = k <;> simp [h]
    · rfl

theorem assocGet_append {α : Type} (a b : List (String × α)) (k : String) :
    assocGet (a ++ b) k = (assocGet b k).elim (assocGet a k) some := by
  simp only [assocGet, List.foldl_append]
  exact assocGet_foldl k b (List.foldl (fun x p => if p.1 = k then some p.2 else x) none a)

theorem assocGet_eq_none_of_not_any {α : Type} (l : List (String × α)) (k : String)
    (h : l.any (fun p => p.1 = k) = false) : assocGet l k = none := by
  induction l with
  | nil => rfl
  | cons hd tl ih =>
    simp only [List.any_cons, Bool.or_eq_false_iff] at h
    have h1 : (hd.1 = k) = False := by
      simpa using h.1
    have htl := ih h.2
    have hc : assocGet (hd :: tl) k =
        List.foldl (fun a p => if p.1 = k then some p.2 else a)
          (if hd.1 = k then some hd.2 else none) tl := rfl
    rw [hc, assocGet_foldl, htl, if_neg (by simp [h1])]
    rfl

theorem buildOptions_get (cfg : ResolvedConfig) (session : WVal) (input : PayInput)
    (k : String) :
    assocGet (buildOptions cfg session input) k =
      (assocGet (input.extra.getD []) k).elim
        (assocGet [("session", session), ("logoUrl", optStrVal input.logoUrl),
          ("brand", optStrVal input.brand), ("callback", optFnVal input.callback),
          ("onClose", optFnVal input.onClose), ("customerId", optStrVal input.customerId),
          ("publicKey", WVal.str cfg.publicKey)] k) some := by
  simp only [buildOptions]
  exact assocGet_append
    [("session", session), ("logoUrl", optStrVal input.logoUrl),
     ("brand", optStrVal input.brand), ("callback", optFnVal input.callback),
     ("onClose", optFnVal input.onClose), ("customerId", optStrVal input.customerId),
     ("publicKey", WVal.str cfg.publicKey)] (input.extra.getD []) k

/-- The success path of `createSession`, shared by several proofs. -/
theorem createSession_ok (cfg : ResolvedConfig) (input : PayInput)
    (fetchFn : FetchRequest → Except JsValue HttpResponse) (resp : HttpResponse)
    (data : Json)
    (hfetch : fetchFn (sessionRequest cfg input) = .ok resp)
    (hok : resp.ok = true)
    (hjson : resp.jsonResult = .ok data)
    (hsess : isSessionResponse data = true) :
    createSession cfg input fetchFn = .ok data := by
  simp [createSession, hfetch, hok, parseJsonResponse, hjson, hsess]

/-- The joint success path of `pay`, shared by several proofs. -/
theorem pay_success (cfg : ResolvedConfig) (w : WinState) (input : PayInput)
    (fetchFn : FetchRequest → Except JsValue HttpResponse) (ev : ScriptLoadEvent)
    (resp : HttpResponse) (data : Json) (f : Nat)
    (htok : isNonEmptyStr input.paymentToken = true)
    (href : isNonEmptyStr input.reference = true)
    (hurl : isNonEmptyStr input.redirectUrl = true)
    (hfetch : fetchFn (sessionRequest cfg input) = .ok resp)
    (hok : resp.ok = true)
    (hjson : resp.jsonResult = .ok data)
    (hsess : isSessionResponse data = true)
    (hload : loadWidgetOutcome cfg w ev = .ok f) :
    pay (some cfg) true w input fetchFn ev =
      .ok [⟨f, buildOptions cfg (sessionValOf data) input⟩] := by
  have hcs := createSession_ok cfg input fetchFn resp data hfetch hok hjson hsess
  simp [pay, htok, href, hurl, hcs, hload]

/-! ### Claims -/

/-- Claim C2: `pay` checks its preconditions in this exact order, the first
failing check determining the error: (1) browser-like environment, else
`BROWSER_ONLY`; (2) stored configuration, else `NOT_INITIALIZED`; (3)
`paymentToken` non-empty after trimming, (4) `reference`, (5)
`redirectUrl`, each failing `INVALID_INPUT`.  In particular `pay` before
any initialization fails `NOT_INITIALIZED` regardless of input validity,
and an empty `paymentToken` fails before `reference`/`redirectUrl` are
examined. -/
theorem pay_precondition_order :
    (∀ cfgOpt w input fetchFn ev,
      pay cfgOpt false w input fetchFn ev =
        .error (.escrow ⟨"pay(...) can only run in the browser.", .BROWSER_ONLY, none, none⟩))
    ∧ (∀ w input fetchFn ev,
      pay none true w input fetchFn ev = .error (.escrow notInitializedErr))
    ∧ (∀ cfg w input fetchFn ev, isNonEmptyStr input.paymentToken = false →
      pay (some cfg) true w input fetchFn ev =
        .error (.escrow ⟨"pay(...) requires \"paymentToken\".", .INVALID_INPUT, none, none⟩))
    ∧ (∀ cfg w input fetchFn ev, isNonEmptyStr input.paymentToken = true →
      isNonEmptyStr input.reference = false →
      pay (some cfg) true w input fetchFn ev =
        .error (.escrow ⟨"pay(...) requires \"reference\".", .INVALID_INPUT, none, none⟩))
    ∧ (∀ cfg w input fetchFn ev, isNonEmptyStr input.paymentToken = true →
      isNonEmptyStr input.reference = true →
      isNonEmptyStr input.redirectUrl = false →
      pay (some cfg) true w input fetchFn ev =
        .error (.escrow ⟨"pay(...) requires \"redirectUrl\".", .INVALID_INPUT, none, none⟩)) := by
  refine ⟨?_, ?_, ?_, ?_, ?_⟩
  · intro cfgOpt w input fetchFn ev
    simp [pay]
  · intro w input fetchFn ev
    simp [pay]
  · intro cfg w input fetchFn ev h
    simp [pay, h]
  · intro cfg w input fetchFn ev h1 h2
    simp [pay, h1, h2]
  · intro cfg w input fetchFn ev h1 h2 h3
    simp [pay, h1, h2, h3]

/-- Witness for C2: before initialization, `pay` with an entirely invalid
input still fails `NOT_INITIALIZED`; with a configuration, an empty
`paymentToken` fails `INVALID_INPUT` even though `reference` and
`redirectUrl` are also empty. -/
theorem pay_precondition_order_witness :
    (pay none true ⟨[], []⟩ ⟨"", "", "", none, none, none, none, none, none⟩
        (fun _ => .error .other) .onerror = .error (.escrow notInitializedErr))
    ∧ isNonEmptyStr "" = false
    ∧ (pay (some ⟨"pk_test_1", DEFAULT_SCRIPT_URL, DEFAULT_GLOBAL_NAME, "anonymous"⟩)
        true ⟨[], []⟩ ⟨"", "", "", none, none, none, none, none, none⟩
        (fun _ => .error .other) .onerror =
      .error (.escrow ⟨"pay(...) requires \"paymentToken\".", .INVALID_INPUT, none, none⟩)) :=
  ⟨pay_precondition_order.2.1 ⟨[], []⟩ ⟨"", "", "", none, none, none, none, none, none⟩
      (fun _ => .error .other) .onerror,
   rfl,
   pay_precondition_order.2.2.1 ⟨"pk_test_1", DEFAULT_SCRIPT_URL, DEFAULT_GLOBAL_NAME, "anonymous"⟩
      ⟨[], []⟩ ⟨"", "", "", none, none, none, none, none, none⟩
      (fun _ => .error .other) .onerror rfl⟩

/-- Claim C3: `createSession` selects its request base URL deterministically
from the public key alone: a key beginning with the live prefix
`pk_live_` targets the production base URL, any other key the staging base
URL, and the choice depends on no other input. -/
theorem sessionRequest_baseUrl :
    (∀ cfg input, jsStartsWith cfg.publicKey "pk_live_" = true →
      (sessionRequest cfg input).url = "https://live.payluk.ng/v1/checkout/session")
    ∧ (∀ cfg input, jsStartsWith cfg.publicKey "pk_live_" = false →
      (sessionRequest cfg input).url = "https://staging.live.payluk.ng/v1/checkout/session")
    ∧ (∀ cfg cfg2 input input2, cfg.publicKey = cfg2.publicKey →
      (sessionRequest cfg input).url = (sessionRequest cfg2 input2).url) := by
  refine ⟨?_, ?_, ?_⟩
  · intro cfg input h
    simp [sessionRequest, apiBaseUrlOf, h]
  · intro cfg input h
    simp [sessionRequest, apiBaseUrlOf, h]
  · intro cfg cfg2 input input2 h
    simp [sessionRequest, apiBaseUrlOf, h]

/-- Witness for C3: a live-prefixed key targets production, a test key
targets staging, and two configurations sharing a key produce the same
request URL on different inputs. -/
theorem sessionRequest_baseUrl_witness :
    (jsStartsWith "pk_live_abc" "pk_live_" = true)
    ∧ ((sessionRequest ⟨"pk_live_abc", "u", "g", ""⟩
        ⟨"t", "r", "https://x", none, none, none, none, none, none⟩).url =
      "https://live.payluk.ng/v1/checkout/session")
    ∧ (jsStartsWith "pk_test_abc" "pk_live_" = false)
    ∧ ((sessionRequest ⟨"pk_test_abc", "u", "g", ""⟩
        ⟨"t", "r", "https://x", none, none, none, none, none, none⟩).url =
      "https://staging.live.payluk.ng/v1/checkout/session") :=
  ⟨by decide,
   sessionRequest_baseUrl.1 ⟨"pk_live_abc", "u", "g", ""⟩
     ⟨"t", "r", "https://x", none, none, none, none, none, none⟩ (by decide),
   by decide,
   sessionRequest_baseUrl.2.1 ⟨"pk_test_abc", "u", "g", ""⟩
     ⟨"t", "r", "https://x", none, none, none, none, none, none⟩ (by decide)⟩

/-- Claim C7: `initEscrowCheckout` with a missing, blank, or
whitespace-only `publicKey` always fails `INVALID_INPUT`; with any
non-blank key it succeeds with no return value, storing the trimmed key
with defaulted `scriptUrl`/`globalName`/`crossOrigin` when not overridden,
overwriting any prior configuration. -/
theorem initEscrow_behavior :
    (∀ prev config, isNonEmptyString (config.bind (fun c => c.publicKey)) = false →
      initEscrowCheckout prev config = (.error initInvalidErr, prev))
    ∧ (∀ prev c k, c.publicKey = some k → isNonEmptyStr k = true →
      initEscrowCheckout prev (some c) =
        (.ok (), some ⟨jsTrim k, orDefault c.scriptUrlOverride DEFAULT_SCRIPT_URL,
          orDefault c.globalName DEFAULT_GLOBAL_NAME, c.crossOrigin.getD "anonymous"⟩))
    ∧ (∀ prev k, isNonEmptyStr k = true →
      initEscrowCheckout prev (some ⟨some k, none, none, none⟩) =
        (.ok (), some ⟨jsTrim k, DEFAULT_SCRIPT_URL, DEFAULT_GLOBAL_NAME, "anonymous"⟩)) := by
  refine ⟨?_, ?_, ?_⟩
  · intro prev config h
    match config with
    | none => rfl
    | some c =>
      match hpk : c.publicKey with
      | none => simp [initEscrowCheckout, hpk]
      | some k =>
        simp [isNonEmptyString, isNonEmptyStr, hpk] at h
        simp [initEscrowCheckout, hpk, h]
  · intro prev c k hpk hk
    simp [isNonEmptyStr] at hk
    simp [initEscrowCheckout, hpk, hk]
  · intro prev k hk
    simp [isNonEmptyStr] at hk
    simp [initEscrowCheckout, hk, orDefault]

/-- Witness for C7: a whitespace-only key fails `INVALID_INPUT` and leaves
a prior configuration visible; a non-blank padded key succeeds, is stored
trimmed with all defaults, and replaces the prior configuration. -/
theorem initEscrow_behavior_witness :
    isNonEmptyString ((some (InitConfig.mk (some "  ") none none none)).bind
        (fun c => c.publicKey)) = false
    ∧ (initEscrowCheckout (some ⟨"old", "u", "g", ""⟩)
        (some ⟨some "  ", none, none, none⟩) =
      (.error initInvalidErr, some ⟨"old", "u", "g", ""⟩))
    ∧ isNonEmptyStr " pk_test_9 " = true
    ∧ (initEscrowCheckout (some ⟨"old", "u", "g", ""⟩)
        (some ⟨some " pk_test_9 ", none, none, none⟩) =
      (.ok (), some ⟨"pk_test_9", DEFAULT_SCRIPT_URL, DEFAULT_GLOBAL_NAME, "anonymous"⟩)) :=
  ⟨by decide,
   initEscrow_behavior.1 (some ⟨"old", "u", "g", ""⟩)
     (some ⟨some "  ", none, none, none⟩) (by decide),
   by decide,
   by
    have h := initEscrow_behavior.2.2 (some ⟨"old", "u", "g", ""⟩) " pk_test_9 " (by decide)
    simpa using h⟩

/-- Claim C9: if `initEscrowCheckout` fails with `INVALID_INPUT`, the
stored process-wide configuration is unchanged: whatever was stored before
the failing call (including the uninitialized state) remains. -/
theorem initEscrow_failure_keeps_config (prev : Option ResolvedConfig)
    (config : Option InitConfig) (e : EscrowError)
    (h : (initEscrowCheckout prev config).1 = .error e) :
    (initEscrowCheckout prev config).2 = prev := by
  match config with
  | none => rfl
  | some c =>
    match hpk : c.publicKey with
    | none => simp [initEscrowCheckout, hpk]
    | some k =>
      by_cases ht : jsTrim k = ""
      · simp [initEscrowCheckout, hpk, ht]
      · simp [initEscrowCheckout, hpk, ht] at h

/-- Counterexample to C4 as stated: the claim says that whenever the
non-success body does not parse to structured data with a string `message`
field, the generic "failed to create session (HTTP status)" message is
used.  But for an HTTP 400 response whose body is the non-empty,
non-parseable text `oops`, the code uses the raw text `oops` itself as the
error message, not the generic message. -/
theorem createSession_generic_message_cex :
    createSession ⟨"pk_test_1", DEFAULT_SCRIPT_URL, DEFAULT_GLOBAL_NAME, "anonymous"⟩
        ⟨"t", "r", "https://x", none, none, none, none, none, none⟩
        (fun _ => .ok ⟨false, 400, .ok "oops", none, .error .other⟩) =
      .error (.escrow ⟨"oops", .SESSION_CREATE, some 400, some (.str "oops")⟩)
    ∧ "oops" ≠ genericCreateMsg 400
    ∧ "oops" ≠ "failed to create session (HTTP 400)" := by
  refine ⟨rfl, ?_, ?_⟩ <;> decide

/-- Claim C4 (amended): for every non-success HTTP response whose body
read succeeds, `createSession` fails `SESSION_CREATE` carrying the
response status; the error message is the parsed body's `message` field
when the body parses to structured data whose `message` is a non-empty
string, the raw body text when the body is non-empty but not parseable,
and otherwise the generic "Failed to create session (HTTP status)."
message; the details are the parsed body when parseable, the raw text when
non-empty and not parseable, and absent when the body is empty.  In
particular, for an HTTP 400 response with body containing
`message: Bad request`, the failure is `SESSION_CREATE` with status 400
and message `Bad request` (see the witness). -/
theorem createSession_error_branch (cfg : ResolvedConfig) (input : PayInput)
    (fetchFn : FetchRequest → Except JsValue HttpResponse) (resp : HttpResponse)
    (text : String)
    (hfetch : fetchFn (sessionRequest cfg input) = .ok resp)
    (hnok : resp.ok = false)
    (htext : resp.textResult = .ok text) :
    createSession cfg input fetchFn =
      .error (.escrow ⟨
        (if text = "" then genericCreateMsg resp.status
         else
           match resp.textParse with
           | some j =>
             match j.get "message" with
             | some (.str s) => if s = "" then genericCreateMsg resp.status else s
             | some _ => genericCreateMsg resp.status
             | none => genericCreateMsg resp.status
           | none => text),
        .SESSION_CREATE, some resp.status,
        (if text = "" then none
         else
           match resp.textParse with
           | some j => some (.json j)
           | none => some (.str text))⟩) := by
  simp only [createSession, hfetch, hnok, parseErrorBody, htext]
  by_cases ht : text = ""
  · simp [ht]
  · rcases hp : resp.textParse with _ | j
    · simp [ht, hp]
    · rcases hm : j.get "message" with _ | v
      · simp [ht, hp, hm]
      · rcases v with _ | b | n | s | elems | fields
        · simp [ht, hp, hm]
        · simp [ht, hp, hm]
        · simp [ht, hp, hm]
        · by_cases hs : s = "" <;> simp [ht, hp, hm, hs]
        · simp [ht, hp, hm]
        · simp [ht, hp, hm]

/-- Witness for C4: the spec's own example — HTTP 400 with body
parsing to an object whose `message` is `Bad request` — fails
`SESSION_CREATE` with status 400, message `Bad request`, and the parsed
body as details. -/
theorem createSession_error_branch_witness :
    createSession ⟨"pk_test_1", DEFAULT_SCRIPT_URL, DEFAULT_GLOBAL_NAME, "anonymous"⟩
        ⟨"t", "r", "https://x", none, none, none, none, none, none⟩
        (fun _ => .ok ⟨false, 400, .ok "\x7b\"message\":\"Bad request\"\x7d",
          some (.obj [("message", .str "Bad request")]), .error .other⟩) =
      .error (.escrow ⟨"Bad request", .SESSION_CREATE, some 400,
        some (.json (.obj [("message", .str "Bad request")]))⟩) := by
  have h := createSession_error_branch
    ⟨"pk_test_1", DEFAULT_SCRIPT_URL, DEFAULT_GLOBAL_NAME, "anonymous"⟩
    ⟨"t", "r", "https://x", none, none, none, none, none, none⟩
    (fun _ => .ok ⟨false, 400, .ok "\x7b\"message\":\"Bad request\"\x7d",
      some (.obj [("message", .str "Bad request")]), .error .other⟩)
    ⟨false, 400, .ok "\x7b\"message\":\"Bad request\"\x7d",
      some (.obj [("message", .str "Bad request")]), .error .other⟩
    "\x7b\"message\":\"Bad request\"\x7d" rfl rfl rfl
  simpa [Json.get, assocGet] using h

/-- Claim C5: for every success-status HTTP response, `createSession`
fails `SESSION_RESPONSE` in exactly two cases and succeeds otherwise: a
body that is not parseable as structured data fails with the status as
detail; a parseable body that is not a session response (in particular one
lacking the `session` key, such as the empty object) fails with the status
and the parsed body as detail; any other parseable body is returned. -/
theorem createSession_success_branch (cfg : ResolvedConfig) (input : PayInput)
    (fetchFn : FetchRequest → Except JsValue HttpResponse) (resp : HttpResponse)
    (hfetch : fetchFn (sessionRequest cfg input) = .ok resp)
    (hok : resp.ok = true) :
    (∀ e, resp.jsonResult = .error e →
      createSession cfg input fetchFn =
        .error (.escrow ⟨"Invalid JSON response from session endpoint.",
          .SESSION_RESPONSE, some resp.status, none⟩))
    ∧ (∀ d, resp.jsonResult = .ok d → isSessionResponse d = false →
      createSession cfg input fetchFn =
        .error (.escrow ⟨"Session response missing \"session\".",
          .SESSION_RESPONSE, some resp.status, some (.json d)⟩))
    ∧ (∀ d, resp.jsonResult = .ok d → isSessionResponse d = true →
      createSession cfg input fetchFn = .ok d) := by
  refine ⟨?_, ?_, ?_⟩
  · intro e he
    simp [createSession, hfetch, hok, parseJsonResponse, he]
  · intro d hd hnot
    simp [createSession, hfetch, hok, parseJsonResponse, hd, hnot]
  · intro d hd hyes
    simp [createSession, hfetch, hok, parseJsonResponse, hd, hyes]

/-- Witness for C5: an HTTP 200 response with a non-parseable body fails
`SESSION_RESPONSE` with status 200; an HTTP 200 response with the empty
object as body fails `SESSION_RESPONSE` with status 200 and the empty
object as details. -/
theorem createSession_success_branch_witness :
    (createSession ⟨"pk_test_1", DEFAULT_SCRIPT_URL, DEFAULT_GLOBAL_NAME, "anonymous"⟩
        ⟨"t", "r", "https://x", none, none, none, none, none, none⟩
        (fun _ => .ok ⟨true, 200, .ok "not json", none, .error (.error "bad json")⟩) =
      .error (.escrow ⟨"Invalid JSON response from session endpoint.",
        .SESSION_RESPONSE, some 200, none⟩))
    ∧ (createSession ⟨"pk_test_1", DEFAULT_SCRIPT_URL, DEFAULT_GLOBAL_NAME, "anonymous"⟩
        ⟨"t", "r", "https://x", none, none, none, none, none, none⟩
        (fun _ => .ok ⟨true, 200, .ok "\x7b\x7d", some (.obj []), .ok (.obj [])⟩) =
      .error (.escrow ⟨"Session response missing \"session\".",
        .SESSION_RESPONSE, some 200, some (.json (.obj []))⟩)) :=
  ⟨(createSession_success_branch
      ⟨"pk_test_1", DEFAULT_SCRIPT_URL, DEFAULT_GLOBAL_NAME, "anonymous"⟩
      ⟨"t", "r", "https://x", none, none, none, none, none, none⟩
      (fun _ => .ok ⟨true, 200, .ok "not json", none, .error (.error "bad json")⟩)
      ⟨true, 200, .ok "not json", none, .error (.error "bad json")⟩ rfl rfl).1
      (.error "bad json") rfl,
   (createSession_success_branch
      ⟨"pk_test_1", DEFAULT_SCRIPT_URL, DEFAULT_GLOBAL_NAME, "anonymous"⟩
      ⟨"t", "r", "https://x", none, none, none, none, none, none⟩
      (fun _ => .ok ⟨true, 200, .ok "\x7b\x7d", some (.obj []), .ok (.obj [])⟩)
      ⟨true, 200, .ok "\x7b\x7d", some (.obj []), .ok (.obj [])⟩ rfl rfl).2.1
      (.obj []) rfl rfl⟩

/-- Witness for C9: a blank-key call fails and the previously stored
configuration is still there afterwards. -/
theorem initEscrow_failure_keeps_config_witness :
    ((initEscrowCheckout (some ⟨"pk_old", "u", "g", "anonymous"⟩)
        (some ⟨some " ", none, none, none⟩)).1 = .error initInvalidErr)
    ∧ ((initEscrowCheckout (some ⟨"pk_old", "u", "g", "anonymous"⟩)
        (some ⟨some " ", none, none, none⟩)).2 = some ⟨"pk_old", "u", "g", "anonymous"⟩) :=
  ⟨rfl,
   initEscrow_failure_keeps_config (some ⟨"pk_old", "u", "g", "anonymous"⟩)
     (some ⟨some " ", none, none, none⟩) initInvalidErr rfl⟩

/-- Claim C1: for every valid `PayInput`, when session creation succeeds
with a response carrying a `session` value and the widget entry point
resolves, `pay` invokes the entry point exactly once with an options
object in which `session` is the endpoint's value, the named fields
(`logoUrl`, `brand`, `callback`, `onClose`, `customerId`, configured
`publicKey`) are set from the input and configuration, and every
caller-supplied `extra` field is shallow-merged on top, overriding any
same-named built-in field. -/
theorem pay_success_options (cfg : ResolvedConfig) (w : WinState) (input : PayInput)
    (fetchFn : FetchRequest → Except JsValue HttpResponse) (ev : ScriptLoadEvent)
    (resp : HttpResponse) (data : Json) (f : Nat)
    (htok : isNonEmptyStr input.paymentToken = true)
    (href : isNonEmptyStr input.reference = true)
    (hurl : isNonEmptyStr input.redirectUrl = true)
    (hfetch : fetchFn (sessionRequest cfg input) = .ok resp)
    (hok : resp.ok = true)
    (hjson : resp.jsonResult = .ok data)
    (hsess : isSessionResponse data = true)
    (hload : loadWidgetOutcome cfg w ev = .ok f) :
    pay (some cfg) true w input fetchFn ev =
      .ok [⟨f, buildOptions cfg (sessionValOf data) input⟩]
    ∧ (∀ k v, assocGet (input.extra.getD []) k = some v →
        assocGet (buildOptions cfg (sessionValOf data) input) k = some v)
    ∧ (assocGet (input.extra.getD []) "session" = none →
        assocGet (buildOptions cfg (sessionValOf data) input) "session" =
          some (sessionValOf data))
    ∧ (assocGet (input.extra.getD []) "logoUrl" = none →
        assocGet (buildOptions cfg (sessionValOf data) input) "logoUrl" =
          some (optStrVal input.logoUrl))
    ∧ (assocGet (input.extra.getD []) "brand" = none →
        assocGet (buildOptions cfg (sessionValOf data) input) "brand" =
          some (optStrVal input.brand))
    ∧ (assocGet (input.extra.getD []) "callback" = none →
        assocGet (buildOptions cfg (sessionValOf data) input) "callback" =
          some (optFnVal input.callback))
    ∧ (assocGet (input.extra.getD []) "onClose" = none →
        assocGet (buildOptions cfg (sessionValOf data) input) "onClose" =
          some (optFnVal input.onClose))
    ∧ (assocGet (input.extra.getD []) "customerId" = none →
        assocGet (buildOptions cfg (sessionValOf data) input) "customerId" =
          some (optStrVal input.customerId))
    ∧ (assocGet (input.extra.getD []) "publicKey" = none →
        assocGet (buildOptions cfg (sessionValOf data) input) "publicKey" =
          some (WVal.str cfg.publicKey)) := by
  refine ⟨pay_success cfg w input fetchFn ev resp data f htok href hurl hfetch hok
      hjson hsess hload, ?_, ?_, ?_, ?_, ?_, ?_, ?_, ?_⟩
  · intro k v hv
    rw [buildOptions_get, hv]
    rfl
  all_goals intro h
  all_goals rw [buildOptions_get, h]
  all_goals simp [Option.elim, assocGet]

/-- Witness for C1: a concrete successful `pay` whose `extra` adds a
`theme` field and overrides the built-in `publicKey`; the invocation list
has exactly one call, the extra field and the override are present, and
`session` is the endpoint's value. -/
theorem pay_success_options_witness :
    pay (some cfgTest) true winC1 inputC1 (fun _ => .ok respC1) (.onload none) =
      .ok [⟨7, buildOptions cfgTest (sessionValOf (.obj [("session", .str "sess_1")])) inputC1⟩]
    ∧ assocGet (buildOptions cfgTest (sessionValOf (.obj [("session", .str "sess_1")])) inputC1)
        "theme" = some (.str "dark")
    ∧ assocGet (buildOptions cfgTest (sessionValOf (.obj [("session", .str "sess_1")])) inputC1)
        "publicKey" = some (.str "pk_override")
    ∧ assocGet (buildOptions cfgTest (sessionValOf (.obj [("session", .str "sess_1")])) inputC1)
        "session" = some (.jval (.str "sess_1")) := by
  have h := pay_success_options cfgTest winC1 inputC1 (fun _ => .ok respC1) (.onload none)
    respC1 (.obj [("session", .str "sess_1")]) 7 (by decide) (by decide) (by decide)
    rfl rfl rfl (by decide) rfl
  exact ⟨h.1, h.2.1 "theme" (.str "dark") rfl, h.2.1 "publicKey" (.str "pk_override") rfl,
    h.2.2.1 rfl⟩

/-- Counterexample to C6 as stated: the claim says the global entry-point
check is performed first and the per-URL cache is consulted only
otherwise.  In a window where the cache already holds an entry for the
script URL AND the global name resolves to a different callable, the code
returns the cached entry (callable 2), while the claim's order would
return and re-cache the global callable 1: the two orders are observably
different. -/
theorem loadWidget_global_first_cex :
    loadWidgetStep ⟨"pk", "https://s.js", "EscrowCheckout", "anonymous"⟩
        ⟨[("https://s.js", .ok 2)], [("EscrowCheckout", .func 1)]⟩ .onerror =
      (.cached, .ok 2, ⟨[("https://s.js", .ok 2)], [("EscrowCheckout", .func 1)]⟩)
    ∧ loadWidgetStepSpecOrder ⟨"pk", "https://s.js", "EscrowCheckout", "anonymous"⟩
        ⟨[("https://s.js", .ok 2)], [("EscrowCheckout", .func 1)]⟩ .onerror =
      (.fromGlobal, .ok 1,
        ⟨[("https://s.js", .ok 2), ("https://s.js", .ok 1)], [("EscrowCheckout", .func 1)]⟩)
    ∧ (loadWidgetStep ⟨"pk", "https://s.js", "EscrowCheckout", "anonymous"⟩
        ⟨[("https://s.js", .ok 2)], [("EscrowCheckout", .func 1)]⟩ .onerror).1 ≠
      (loadWidgetStepSpecOrder ⟨"pk", "https://s.js", "EscrowCheckout", "anonymous"⟩
        ⟨[("https://s.js", .ok 2)], [("EscrowCheckout", .func 1)]⟩ .onerror).1
    ∧ (loadWidgetStep ⟨"pk", "https://s.js", "EscrowCheckout", "anonymous"⟩
        ⟨[("https://s.js", .ok 2)], [("EscrowCheckout", .func 1)]⟩ .onerror).2.1 ≠
      (loadWidgetStepSpecOrder ⟨"pk", "https://s.js", "EscrowCheckout", "anonymous"⟩
        ⟨[("https://s.js", .ok 2)], [("EscrowCheckout", .func 1)]⟩ .onerror).2.1 := by
  refine ⟨rfl, rfl, by decide, ?_⟩
  intro h
  have h2 : (Except.ok 2 : Except EscrowError Nat) = Except.ok 1 := h
  simp at h2

/-- Claim C6 (amended): in every call to `loadWidget`, the process-wide
per-URL cache is consulted FIRST: a cache hit is returned as is, with no
global-name check, no re-caching and no script tag injected; only on a
cache miss is the global entry-point name examined, and a callable found
there is cached under the configured script URL and returned with no
injection; only when both are absent is a new pending operation stored and
a script element injected. -/
theorem loadWidget_cache_first (cfg : ResolvedConfig) (w : WinState) (ev : ScriptLoadEvent) :
    (∀ e, assocGet w.loaderCache cfg.scriptUrl = some e →
      loadWidgetStep cfg w ev = (.cached, e, w))
    ∧ (∀ f, assocGet w.loaderCache cfg.scriptUrl = none →
      assocGet w.globals cfg.globalName = some (.func f) →
      loadWidgetStep cfg w ev =
        (.fromGlobal, .ok f, ⟨w.loaderCache ++ [(cfg.scriptUrl, .ok f)], w.globals⟩))
    ∧ (assocGet w.loaderCache cfg.scriptUrl = none →
      (∀ f, assocGet w.globals cfg.globalName ≠ some (.func f)) →
      loadWidgetStep cfg w ev =
        (.injected, resolveInjected cfg.globalName cfg.scriptUrl ev,
          ⟨w.loaderCache ++ [(cfg.scriptUrl, resolveInjected cfg.globalName cfg.scriptUrl ev)],
           w.globals⟩)) := by
  refine ⟨?_, ?_, ?_⟩
  · intro e he
    simp [loadWidgetStep, he]
  · intro f hc hg
    simp [loadWidgetStep, hc, hg]
  · intro hc hg
    rcases hG : assocGet w.globals cfg.globalName with _ | v
    · simp [loadWidgetStep, hc, hG]
    · rcases v with f | _
      · exact absurd hG (hg f)
      · simp [loadWidgetStep, hc, hG]

/-- Witness for C6 (amended): with a cached entry present the call returns
it untouched even though the global is callable; with an empty cache the
global callable is adopted and cached; with neither, a script is injected
and its pending outcome cached. -/
theorem loadWidget_cache_first_witness :
    loadWidgetStep ⟨"pk", "https://s.js", "EscrowCheckout", "anonymous"⟩
        ⟨[("https://s.js", .ok 2)], [("EscrowCheckout", .func 1)]⟩ .onerror =
      (.cached, .ok 2, ⟨[("https://s.js", .ok 2)], [("EscrowCheckout", .func 1)]⟩)
    ∧ loadWidgetStep ⟨"pk", "https://s.js", "EscrowCheckout", "anonymous"⟩
        ⟨[], [("EscrowCheckout", .func 1)]⟩ .onerror =
      (.fromGlobal, .ok 1, ⟨[("https://s.js", .ok 1)], [("EscrowCheckout", .func 1)]⟩)
    ∧ loadWidgetStep ⟨"pk", "https://s.js", "EscrowCheckout", "anonymous"⟩
        ⟨[], []⟩ (.onload (some (.func 3))) =
      (.injected, .ok 3, ⟨[("https://s.js", .ok 3)], []⟩) :=
  ⟨(loadWidget_cache_first ⟨"pk", "https://s.js", "EscrowCheckout", "anonymous"⟩
      ⟨[("https://s.js", .ok 2)], [("EscrowCheckout", .func 1)]⟩ .onerror).1 (.ok 2) rfl,
   (loadWidget_cache_first ⟨"pk", "https://s.js", "EscrowCheckout", "anonymous"⟩
      ⟨[], [("EscrowCheckout", .func 1)]⟩ .onerror).2.1 1 rfl rfl,
   (loadWidget_cache_first ⟨"pk", "https://s.js", "EscrowCheckout", "anonymous"⟩
      ⟨[], []⟩ (.onload (some (.func 3)))).2.2 rfl (fun f h => by simp [assocGet] at h)⟩

/-- Claim C8 is violated by the code: `parseErrorBody` awaits
`resp.text()` without a guard, so when a non-success response's body read
rejects, the raw error crosses `pay`'s public boundary unwrapped (as a
`Thrown.js`, not a `Thrown.escrow` carrying a taxonomy code).  The second
conjunct shows the intended behaviour at the same input when the body read
succeeds: the failure is then a wrapped `SESSION_CREATE`. -/
theorem pay_raw_error_escapes :
    pay (some cfgTest) true winC1 inputC10
        (fun _ => .ok ⟨false, 500, .error (.error "network interrupted"), none, .error .other⟩)
        (.onload none) =
      .error (.js (.error "network interrupted"))
    ∧ pay (some cfgTest) true winC1 inputC10
        (fun _ => .ok ⟨false, 500, .ok "boom", none, .error .other⟩) (.onload none) =
      .error (.escrow ⟨"boom", .SESSION_CREATE, some 500, some (.str "boom")⟩) :=
  ⟨rfl, rfl⟩

/-- Claim C10: the validity check on a success body requires only the
presence of the `session` key in a parsed object, not any particular
value: for every parseable success body that is an object containing the
key `session` — including one whose `session` value is null —
`createSession` succeeds and `pay` forwards that exact value as the
`session` option to the widget entry point (when `extra` does not override
it). -/
theorem createSession_session_key_only (cfg : ResolvedConfig) (w : WinState)
    (input : PayInput) (fetchFn : FetchRequest → Except JsValue HttpResponse)
    (ev : ScriptLoadEvent) (resp : HttpResponse) (fs : List (String × Json))
    (v : Json) (f : Nat)
    (htok : isNonEmptyStr input.paymentToken = true)
    (href : isNonEmptyStr input.reference = true)
    (hurl : isNonEmptyStr input.redirectUrl = true)
    (hfetch : fetchFn (sessionRequest cfg input) = .ok resp)
    (hok : resp.ok = true)
    (hjson : resp.jsonResult = .ok (.obj fs))
    (hget : assocGet fs "session" = some v)
    (hload : loadWidgetOutcome cfg w ev = .ok f)
    (hex : assocGet (input.extra.getD []) "session" = none) :
    createSession cfg input fetchFn = .ok (.obj fs)
    ∧ pay (some cfg) true w input fetchFn ev =
        .ok [⟨f, buildOptions cfg (.jval v) input⟩]
    ∧ assocGet (buildOptions cfg (.jval v) input) "session" = some (.jval v) := by
  have hany : fs.any (fun p => p.1 = "session") = true := by
    rcases hA : fs.any (fun p => p.1 = "session") with _ | _
    · rw [assocGet_eq_none_of_not_any fs "session" hA] at hget
      exact Option.noConfusion hget
    · rfl
  have hsess : isSessionResponse (.obj fs) = true := by
    simp [isSessionResponse, Json.truthy, Json.typeofObject, Json.hasKey, hany]
  have hsv : sessionValOf (.obj fs) = .jval v := by
    simp [sessionValOf, Json.get, hget]
  have hp := pay_success cfg w input fetchFn ev resp (.obj fs) f htok href hurl
    hfetch hok hjson hsess hload
  rw [hsv] at hp
  refine ⟨createSession_ok cfg input fetchFn resp (.obj fs) hfetch hok hjson hsess,
    hp, ?_⟩
  rw [buildOptions_get, hex]
  simp [Option.elim, assocGet]

/-- Witness for C10: a success body whose `session` value is null is
accepted, and `pay` forwards null as the `session` option. -/
theorem createSession_session_key_only_witness :
    createSession cfgTest inputC10 (fun _ => .ok respC10) = .ok (.obj [("session", Json.null)])
    ∧ pay (some cfgTest) true winC1 inputC10 (fun _ => .ok respC10) (.onload none) =
        .ok [⟨7, buildOptions cfgTest (.jval Json.null) inputC10⟩]
    ∧ assocGet (buildOptions cfgTest (.jval Json.null) inputC10) "session" =
        some (.jval Json.null) :=
  createSession_session_key_only cfgTest winC1 inputC10 (fun _ => .ok respC10)
    (.onload none) respC10 [("session", Json.null)] Json.null 7
    (by decide) (by decide) (by decide) rfl rfl rfl rfl rfl rfl

end Payluk
